import Mathlib

/-!
Shallow embedding of the hono-typeorm task-management API
(authentication flow, verification links, task CRUD handlers),
translated from `src/data-source.ts`, `src/handlers/tasks.handler.ts`,
`src/middleware/auth.middleware.ts`, `src/contexts/user.context.ts` and
`src/utils/hash-hmac.ts`.

Conventions:
- JavaScript millisecond timestamps are `Int`; `NaN` results of `parseInt`
  are `Option.none`.
- The keyed HMAC `hashHmac` (crypto.createHmac("sha256", JWT_SECRET)) is an
  uninterpreted parameter `hmac : String → String`: theorems hold for every
  instantiation, and concrete witnesses instantiate it with an explicit
  function.
- `bcrypt.compare` is likewise an uninterpreted parameter
  `compare : String → String → Bool` (password against stored hash).
-/

namespace HonoTypeorm

/-- Model of JavaScript `parseInt(s)` in base 10: an optional sign followed
by the longest leading run of decimal digits; `none` models `NaN`
(no leading digit).  Leading whitespace and `0x` prefixes are not used by
any caller in this repository and are not modelled. -/
def jsParseInt (s : String) : Option Int :=
  let digitsToNat : List Char → Nat :=
    fun ds => ds.foldl (fun a c => a * 10 + (c.toNat - 48)) 0
  match s.data with
  | [] => none
  | '-' :: rest =>
    match rest.takeWhile (·.isDigit) with
    | [] => none
    | ds => some (-(digitsToNat ds : Int))
  | '+' :: rest =>
    match rest.takeWhile (·.isDigit) with
    | [] => none
    | ds => some ((digitsToNat ds : Int))
  | cs =>
    match cs.takeWhile (·.isDigit) with
    | [] => none
    | ds => some ((digitsToNat ds : Int))

/-- Result of the link-validation portion of the GET /auth/verify handler
(`data-source.ts` lines 341-357): success, "Invalid signature" (400) or
"Request expired" (400). -/
inductive VerifyLinkResult
  | ok
  | invalidSignature
  | linkExpired
deriving DecidableEq, Repr

/-- The link-validation portion of `auth.get("/verify")`
(`data-source.ts` lines 341-357), with the process HMAC
`hashHmac = HMAC-SHA256(JWT_SECRET, ·)` passed as `hmac` and the current
time `Date.now()` as `now` (milliseconds).

The source computes
`timeDiff = currentDate.getTime() - new Date(parseInt(request_at)).getTime()`,
then rejects with "Invalid signature" when
`hashHmac(email + "#" + request_at) !== signature`, then rejects with
"Request expired" when `timeDiff > 1000 * 60 * 10`.  When `request_at` has
no parse (`NaN`), `timeDiff` is `NaN` and the JS comparison
`NaN > 600000` is `false`, so the expiry check passes. -/
def validateVerificationLink (hmac : String → String) (now : Int)
    (email request_at signature : String) : VerifyLinkResult :=
  if hmac (email ++ "#" ++ request_at) ≠ signature then
    VerifyLinkResult.invalidSignature
  else
    match jsParseInt request_at with
    | none => VerifyLinkResult.ok
    | some t =>
      if now - t > 1000 * 60 * 10 then VerifyLinkResult.linkExpired
      else VerifyLinkResult.ok

/-- The verification URL built by `auth.post("/request-verification")`
(`data-source.ts` lines 311-315).  The source is a multi-line template
literal, so the produced string contains a literal newline and six spaces
of indentation before each of `?email=`, `&request_at=` and `&signature=`:

  APP_URL/auth/verify\n      ?email=EMAIL\n      &request_at=T\n      &signature=HMAC(EMAIL#T)
-/
def buildVerificationUrl (hmac : String → String) (appUrl email : String)
    (loggedDate : Int) : String :=
  appUrl ++ "/auth/verify" ++ "\n      " ++ "?email=" ++ email
    ++ "\n      " ++ "&request_at=" ++ toString loggedDate
    ++ "\n      " ++ "&signature=" ++ hmac (email ++ "#" ++ toString loggedDate)

/-- The characters after the first occurrence of `sep`, when it occurs. -/
def afterChar (sep : Char) : List Char → Option (List Char)
  | [] => none
  | c :: cs => if c = sep then some cs else afterChar sep cs

/-- Split a character list at every occurrence of `sep`. -/
def splitChar (sep : Char) : List Char → List (List Char)
  | [] => [[]]
  | c :: cs =>
    if c = sep then [] :: splitChar sep cs
    else
      match splitChar sep cs with
      | [] => [[c]]
      | h :: t => (c :: h) :: t

/-- The query string of a URL: everything after the first `?`. -/
def queryStringOf (url : String) : String :=
  String.mk ((afterChar '?' url.data).getD [])

/-- The query parameters of a URL, per the usual `name=value` splitting on
`&` (standard query-string semantics, used to read back what
`buildVerificationUrl` embeds). -/
def queryParamsOf (url : String) : List (String × String) :=
  (splitChar '&' (queryStringOf url).data).map (fun kv =>
    match afterChar '=' kv with
    | none => (String.mk kv, "")
    | some v => (String.mk (kv.takeWhile (fun c => c ≠ '=')), String.mk v))

/-- The value of the first query parameter named `name`, if any. -/
def queryLookup (url name : String) : Option String :=
  ((queryParamsOf url).find? (fun p => p.1 = name)).map (·.2)

/-- When `request_at` parses to `t`, the verify-link check is the
two-step signature-then-expiry test. -/
theorem validateVerificationLink_eq_of_parse (hmac : String → String) (now : Int)
    (email request_at signature : String) (t : Int)
    (hp : jsParseInt request_at = some t) :
    validateVerificationLink hmac now email request_at signature =
      (if hmac (email ++ "#" ++ request_at) ≠ signature then
        VerifyLinkResult.invalidSignature
      else if now - t > 1000 * 60 * 10 then VerifyLinkResult.linkExpired
      else VerifyLinkResult.ok) := by
  unfold validateVerificationLink
  rw [hp]

/-- C1: the GET /auth/verify link validation succeeds iff the supplied
signature equals the keyed HMAC of `email ++ "#" ++ request_at` and the
elapsed time `now - parse(request_at)` is at most 10 minutes (600000 ms);
in particular, with a correct signature, a link 9 min 59 s old succeeds and
a link 10 min 1 s old fails with "Request expired" (LinkExpired). -/
theorem validateVerificationLink_ok_iff (hmac : String → String) (now : Int)
    (email request_at signature : String) (t : Int)
    (hp : jsParseInt request_at = some t) :
    (validateVerificationLink hmac now email request_at signature = VerifyLinkResult.ok ↔
      (hmac (email ++ "#" ++ request_at) = signature ∧ now - t ≤ 1000 * 60 * 10))
    ∧ (hmac (email ++ "#" ++ request_at) = signature → now - t = 599000 →
        validateVerificationLink hmac now email request_at signature = VerifyLinkResult.ok)
    ∧ (hmac (email ++ "#" ++ request_at) = signature → now - t = 601000 →
        validateVerificationLink hmac now email request_at signature =
          VerifyLinkResult.linkExpired) := by
  rw [validateVerificationLink_eq_of_parse hmac now email request_at signature t hp]
  by_cases hs : hmac (email ++ "#" ++ request_at) = signature
  · rw [if_neg (not_not_intro hs)]
    by_cases ht : now - t > 1000 * 60 * 10
    · rw [if_pos ht]
      refine ⟨⟨(fun h => nomatch h), fun h => absurd h.2 (by omega)⟩, ?_, ?_⟩
      · intro _ he; exact absurd he (by omega)
      · intro _ _; rfl
    · rw [if_neg ht]
      refine ⟨⟨fun _ => ⟨hs, by omega⟩, fun _ => rfl⟩, ?_, ?_⟩
      · intro _ _; rfl
      · intro _ he; exact absurd he (by omega)
  · rw [if_pos hs]
    refine ⟨⟨(fun h => nomatch h), fun h => absurd h.1 hs⟩, ?_, ?_⟩
    · intro hc _; exact absurd hc hs
    · intro hc _; exact absurd hc hs

/-- Witness for C1 at a concrete input: identity as the HMAC stand-in,
`now = 600000`, `request_at = "1000"`, correct signature. -/
theorem validateVerificationLink_ok_iff_witness :
    validateVerificationLink (fun s => s) 600000 "a@b.c" "1000" "a@b.c#1000" =
      VerifyLinkResult.ok :=
  ((validateVerificationLink_ok_iff (fun s => s) 600000 "a@b.c" "1000"
    "a@b.c#1000" 1000 rfl).2.1) rfl (by norm_num)

/-- Submitting a verification URL to GET /auth/verify: the handler reads
the query parameters `email`, `request_at`, `signature` from the URL and
runs the link validation on them. -/
def submitUrlToVerify (hmac : String → String) (now : Int) (url : String) :
    VerifyLinkResult :=
  validateVerificationLink hmac now
    ((queryLookup url "email").getD "")
    ((queryLookup url "request_at").getD "")
    ((queryLookup url "signature").getD "")

/-- C2 (code bug): the multi-line template literal of
`auth.post("/request-verification")` leaves a literal newline plus six
spaces inside the query string, so the value of the `email` parameter of
the produced URL is NOT the user's email (it carries trailing whitespace),
the `request_at` value likewise, and submitting the URL's query parameters
back to GET /auth/verify immediately (elapsed time 0) is rejected with
"Invalid signature": the signature embedded in the URL covers the clean
`email#T` string while the handler recomputes the HMAC over the
whitespace-polluted parameter values.  Shown at the concrete input
email `a@b.c`, T = 1000, with the injective HMAC stand-in
`fun s => "S(" ++ s ++ ")"`. -/
theorem requestVerification_roundTrip_fails :
    queryLookup
        (buildVerificationUrl (fun s => "S(" ++ s ++ ")") "http://app" "a@b.c" 1000)
        "email" = some ("a@b.c" ++ "\n      ")
    ∧ queryLookup
        (buildVerificationUrl (fun s => "S(" ++ s ++ ")") "http://app" "a@b.c" 1000)
        "email" ≠ some "a@b.c"
    ∧ queryLookup
        (buildVerificationUrl (fun s => "S(" ++ s ++ ")") "http://app" "a@b.c" 1000)
        "request_at" = some ("1000" ++ "\n      ")
    ∧ submitUrlToVerify (fun s => "S(" ++ s ++ ")") 1000
        (buildVerificationUrl (fun s => "S(" ++ s ++ ")") "http://app" "a@b.c" 1000) =
        VerifyLinkResult.invalidSignature
    ∧ submitUrlToVerify (fun s => "S(" ++ s ++ ")") 1000
        (buildVerificationUrl (fun s => "S(" ++ s ++ ")") "http://app" "a@b.c" 1000) ≠
        VerifyLinkResult.ok := by
  refine ⟨?_, ?_, ?_, ?_, ?_⟩ <;> decide

/-- A user row (`src/models/user.model.ts`): id, firstName, lastName,
email (unique), password (bcrypt hash), emailVerifiedAt (nullable,
milliseconds). -/
structure UserRec where
  id : Int
  firstName : String
  lastName : String
  email : String
  password : String
  emailVerifiedAt : Option Int
deriving DecidableEq, Repr

/-- The JWT payload signed by `generateUserToken`
(`data-source.ts` lines 105-114): userId, firstName, lastName, email and
`exp = Math.floor(Date.now() / 1000) + 60 * 60`. -/
structure JwtClaims where
  userId : Int
  firstName : String
  lastName : String
  email : String
  exp : Int
deriving DecidableEq, Repr

/-- Modelled from the spec: the Token Service's signed session token
(`hono/jwt` `sign`/`verify` are library code, not in this repository).
Ideal-crypto model: a signed token is its payload together with the secret
it was signed with; a verifier holding the same secret accepts, any other
secret is a signature failure. -/
structure Jwt where
  payload : JwtClaims
  secret : String
deriving DecidableEq, Repr

/-- Modelled from the spec: `issueSessionToken` "signs with the shared
secret" — in the ideal-crypto model, signing just attaches the secret. -/
def jwtSign (p : JwtClaims) (secret : String) : Jwt := ⟨p, secret⟩

/-- Token Service failure kinds (spec section 4.1). -/
inductive TokenError
  | tokenExpired
  | tokenInvalid
deriving DecidableEq, Repr

/-- Modelled from the spec: `verifySessionToken(token) → claims` "fails
with TokenExpired when current time ≥ claim expiry; fails with
TokenInvalid when the signature does not verify".  `nowSec` is the current
time in epoch seconds, matching the `exp` claim's unit. -/
def jwtVerify (tok : Jwt) (secret : String) (nowSec : Int) :
    Except TokenError JwtClaims :=
  if tok.secret ≠ secret then Except.error TokenError.tokenInvalid
  else if nowSec ≥ tok.payload.exp then Except.error TokenError.tokenExpired
  else Except.ok tok.payload

/-- `Math.floor(nowMs / 1000)`: floor division of the millisecond clock. -/
def jsEpochSeconds (nowMs : Int) : Int := Int.fdiv nowMs 1000

/-- The claims `generateUserToken` puts into the JWT
(`data-source.ts` lines 105-114). -/
def generateUserTokenClaims (user : UserRec) (nowMs : Int) : JwtClaims :=
  { userId := user.id
    firstName := user.firstName
    lastName := user.lastName
    email := user.email
    exp := jsEpochSeconds nowMs + 60 * 60 }

/-- The JWT issued by `generateUserToken`, signed with
`process.env.JWT_SECRET`. -/
def generateUserTokenJwt (user : UserRec) (secret : String) (nowMs : Int) : Jwt :=
  jwtSign (generateUserTokenClaims user nowMs) secret

/-- C3: the JWT issued on login/registration carries exactly the claims
user id, first name, last name, email, and expiry = issue time + 1 hour;
verifying it with the same secret strictly less than 1 hour after issuance
yields the original claims, and verifying it 1 hour or more after issuance
fails with TokenExpired. -/
theorem sessionToken_roundTrip (user : UserRec) (secret : String)
    (nowMs verifySec : Int) :
    (generateUserTokenClaims user nowMs =
      { userId := user.id, firstName := user.firstName,
        lastName := user.lastName, email := user.email,
        exp := jsEpochSeconds nowMs + 60 * 60 })
    ∧ (verifySec - jsEpochSeconds nowMs < 60 * 60 →
        jwtVerify (generateUserTokenJwt user secret nowMs) secret verifySec =
          Except.ok (generateUserTokenClaims user nowMs))
    ∧ (verifySec - jsEpochSeconds nowMs ≥ 60 * 60 →
        jwtVerify (generateUserTokenJwt user secret nowMs) secret verifySec =
          Except.error TokenError.tokenExpired) := by
  refine ⟨rfl, ?_, ?_⟩
  · intro hlt
    unfold jwtVerify generateUserTokenJwt jwtSign
    rw [if_neg (not_not_intro rfl)]
    rw [if_neg (show ¬ verifySec ≥ (generateUserTokenClaims user nowMs).exp by
      simp only [generateUserTokenClaims]
      omega)]
  · intro hge
    unfold jwtVerify generateUserTokenJwt jwtSign
    rw [if_neg (not_not_intro rfl)]
    rw [if_pos (show verifySec ≥ (generateUserTokenClaims user nowMs).exp by
      simp only [generateUserTokenClaims]
      omega)]

/-- Witness for C3: a concrete user, secret "s", issued at 0 ms,
verified at 10 s. -/
theorem sessionToken_roundTrip_witness :
    jwtVerify (generateUserTokenJwt ⟨1, "Jo", "Do", "a@b.c", "h", none⟩ "s" 0) "s" 10 =
      Except.ok (generateUserTokenClaims ⟨1, "Jo", "Do", "a@b.c", "h", none⟩ 0) :=
  (sessionToken_roundTrip ⟨1, "Jo", "Do", "a@b.c", "h", none⟩ "s" 0 10).2.1 (by decide)

/-- `AppDataSource.manager.findOneBy(User, { email })`: first stored user
with the given email (emails are unique in the store). -/
def findOneByEmail (db : List UserRec) (email : String) : Option UserRec :=
  db.find? (fun u => u.email == email)

/-- Response of the POST /auth/login handler
(`data-source.ts` lines 247-272). -/
inductive LoginResp
  | clientError (status : Nat) (message : String)
  | success (message : String) (token : Jwt) (refreshToken : String)
deriving DecidableEq, Repr

/-- `auth.post("/login")` handler body (`data-source.ts` lines 247-272):
look the user up by email; if there is no such user OR
`bcrypt.compare(password, matchedUser.password)` is false, answer
`{ message: "Invalid email or password" }` with status 400; otherwise
issue the session token and refresh token via `generateUserToken`.
`compare` stands for `bcrypt.compare`, `uuid` for the `randomUUID()`
value of the refresh token. -/
def login (db : List UserRec) (compare : String → String → Bool)
    (secret : String) (nowMs : Int) (uuid : String)
    (email password : String) : LoginResp :=
  match findOneByEmail db email with
  | none => LoginResp.clientError 400 "Invalid email or password"
  | some matchedUser =>
    if ¬ compare password matchedUser.password then
      LoginResp.clientError 400 "Invalid email or password"
    else
      LoginResp.success "Successfully logged in"
        (generateUserTokenJwt matchedUser secret nowMs) uuid

/-- C4: login with an unknown email and login with a known email but a
failing password comparison return the identical response (same 400
status, same body), and login with a known email and passing password
comparison returns a session token plus refresh token pair. -/
theorem login_nondistinguishing (db : List UserRec)
    (compare : String → String → Bool) (secret : String) (nowMs : Int)
    (uuid : String) (e1 p1 e2 p2 e3 p3 : String) (u2 u3 : UserRec)
    (h1 : findOneByEmail db e1 = none)
    (h2 : findOneByEmail db e2 = some u2)
    (h2c : compare p2 u2.password = false)
    (h3 : findOneByEmail db e3 = some u3)
    (h3c : compare p3 u3.password = true) :
    login db compare secret nowMs uuid e1 p1 =
      LoginResp.clientError 400 "Invalid email or password"
    ∧ login db compare secret nowMs uuid e2 p2 =
      LoginResp.clientError 400 "Invalid email or password"
    ∧ login db compare secret nowMs uuid e1 p1 =
      login db compare secret nowMs uuid e2 p2
    ∧ login db compare secret nowMs uuid e3 p3 =
      LoginResp.success "Successfully logged in"
        (generateUserTokenJwt u3 secret nowMs) uuid := by
  have l1 : login db compare secret nowMs uuid e1 p1 =
      LoginResp.clientError 400 "Invalid email or password" := by
    unfold login
    rw [h1]
  have l2 : login db compare secret nowMs uuid e2 p2 =
      LoginResp.clientError 400 "Invalid email or password" := by
    unfold login
    rw [h2]
    simp [h2c]
  have l3 : login db compare secret nowMs uuid e3 p3 =
      LoginResp.success "Successfully logged in"
        (generateUserTokenJwt u3 secret nowMs) uuid := by
    unfold login
    rw [h3]
    simp [h3c]
  exact ⟨l1, l2, l1.trans l2.symm, l3⟩

/-- Witness for C4: one stored user `a@b.c` with stored hash "H";
`compare` is string equality of password and stored hash. -/
theorem login_nondistinguishing_witness :
    login [⟨1, "Jo", "Do", "a@b.c", "H", none⟩] (fun p h => p == h) "s" 0 "uuid0"
        "x@y.z" "pw1234" =
      login [⟨1, "Jo", "Do", "a@b.c", "H", none⟩] (fun p h => p == h) "s" 0 "uuid0"
        "a@b.c" "wrong1" :=
  (login_nondistinguishing [⟨1, "Jo", "Do", "a@b.c", "H", none⟩]
    (fun p h => p == h) "s" 0 "uuid0" "x@y.z" "pw1234" "a@b.c" "wrong1" "a@b.c" "H"
    ⟨1, "Jo", "Do", "a@b.c", "H", none⟩ ⟨1, "Jo", "Do", "a@b.c", "H", none⟩
    (by decide) (by decide) (by decide) (by decide) (by decide)).2.2.1

/-- Observable outcome of one POST /auth/register request
(`data-source.ts` lines 180-219): the committed user store afterwards,
whether `rollbackTransaction` ran, whether the query runner was released,
and the response (`Except.error` = the error was re-thrown to the caller,
surfaced as a generic 500). -/
structure RegResult where
  db : List UserRec
  rolledBack : Bool
  released : Bool
  response : Except String (String × Jwt × String)
deriving Repr

/-- `auth.post("/register")` handler body (`data-source.ts` lines
180-219):

  try { connect; startTransaction; build user (json parse, bcrypt.hash);
        queryRunner.manager.save(user); commitTransaction;
        generateUserToken(user); return 200 }
  catch (error) { rollbackTransaction; throw error }
  finally { release }

`txStepError` injects a throw from any step between `startTransaction`
and `commitTransaction` (body parse, hashing, the user insert);
`tokenError` injects a throw from `generateUserToken`, which runs after
the commit.  `some msg` means that step throws `msg`. -/
def register (db : List UserRec) (user : UserRec) (secret : String)
    (nowMs : Int) (uuid : String) (txStepError tokenError : Option String) :
    RegResult :=
  match txStepError with
  | some e =>
    -- a step inside the open transaction threw: the catch block rolls the
    -- uncommitted insert back and rethrows; the finally block releases
    { db := db, rolledBack := true, released := true,
      response := Except.error e }
  | none =>
    match tokenError with
    | some e =>
      -- commitTransaction already ran, so the insert is durable;
      -- generateUserToken threw afterwards: the catch block still calls
      -- rollbackTransaction (there is nothing left to undo) and rethrows
      { db := db ++ [user], rolledBack := true, released := true,
        response := Except.error e }
    | none =>
      { db := db ++ [user], rolledBack := false, released := true,
        response := Except.ok ("Successfully registration user",
          generateUserTokenJwt user secret nowMs, uuid) }

/-- C5: if any step inside the registration transaction fails, the
transaction is rolled back, the error is re-raised, and the store holds
no partial user record; the transaction covers only the user insert (a
failure of token issuance, which runs after the commit, leaves the user
committed); and the query runner is released on every exit path. -/
theorem register_atomicity (db : List UserRec) (user : UserRec)
    (secret : String) (nowMs : Int) (uuid : String) (e : String)
    (te so tf : Option String) :
    (register db user secret nowMs uuid (some e) te).db = db
    ∧ (register db user secret nowMs uuid (some e) te).rolledBack = true
    ∧ (register db user secret nowMs uuid (some e) te).response = Except.error e
    ∧ (register db user secret nowMs uuid none (some e)).db = db ++ [user]
    ∧ (register db user secret nowMs uuid none (some e)).response = Except.error e
    ∧ (register db user secret nowMs uuid none none).db = db ++ [user]
    ∧ (register db user secret nowMs uuid so tf).released = true := by
  refine ⟨rfl, rfl, rfl, rfl, rfl, rfl, ?_⟩
  cases so <;> cases tf <;> rfl

/-- A task row (`src/models/task.model.ts`): id, title, description,
completed, owning user (the foreign-key value; `none` models a NULL
owner, and `completed = none` models the runtime value `undefined`),
created_at and nullable updated_at in milliseconds. -/
structure TaskRec where
  id : Int
  title : String
  description : String
  completed : Option Bool
  userId : Option Int
  createdAt : Int
  updatedAt : Option Int
deriving DecidableEq, Repr

/-- The `where: { user }` comparison of the task queries: a relation
filter matches on the owning user's id (NULL owner matches a null
`user` value). -/
def taskOwnedBy (t : TaskRec) (user : Option UserRec) : Bool :=
  match user with
  | some u => t.userId == some u.id
  | none => t.userId == (none : Option Int)

/-- JavaScript `parseInt(x) || d`: the default is used when `parseInt`
gives `NaN` (here `none`) or the falsy number 0. -/
def jsOrDefault (v : Option Int) (d : Int) : Int :=
  match v with
  | none => d
  | some n => if n = 0 then d else n

/-- `take: parseInt(per_page) || 10` (`tasks.handler.ts` line 30);
`none` is an absent query parameter. -/
def tasksQueryTake (per_page : Option String) : Int :=
  jsOrDefault (per_page.bind jsParseInt) 10

/-- The effective page `parseInt(page) || 1` (`tasks.handler.ts`
line 31). -/
def tasksQueryPage (page : Option String) : Int :=
  jsOrDefault (page.bind jsParseInt) 1

/-- `skip: ((parseInt(page) || 1) - 1) * (parseInt(per_page) || 10)`
(`tasks.handler.ts` line 31). -/
def tasksQuerySkip (page per_page : Option String) : Int :=
  (tasksQueryPage page - 1) * tasksQueryTake per_page

/-- Insert one task into a list that is ordered by `createdAt`
descending. -/
def insertTaskDesc (t : TaskRec) : List TaskRec → List TaskRec
  | [] => [t]
  | x :: xs =>
    if x.createdAt ≤ t.createdAt then t :: x :: xs
    else x :: insertTaskDesc t xs

/-- `order: { createdAt: "DESC" }` as an insertion sort (only the
underlying multiset matters for the theorems below). -/
def sortByCreatedAtDesc : List TaskRec → List TaskRec
  | [] => []
  | x :: xs => insertTaskDesc x (sortByCreatedAtDesc xs)

/-- `tasks.get("/")` (`tasks.handler.ts` lines 19-48): tasks of the
authenticated user, newest first, skipping `(page - 1) * per_page`
records and returning at most `per_page` of them. -/
def listTasks (db : List TaskRec) (user : Option UserRec)
    (page per_page : Option String) : List TaskRec :=
  ((sortByCreatedAtDesc (db.filter (fun t => taskOwnedBy t user))).drop
      (tasksQuerySkip page per_page).toNat).take
    (tasksQueryTake per_page).toNat

theorem mem_insertTaskDesc {x t : TaskRec} {l : List TaskRec}
    (h : x ∈ insertTaskDesc t l) : x = t ∨ x ∈ l := by
  induction l with
  | nil =>
    simp only [insertTaskDesc, List.mem_singleton] at h
    exact Or.inl h
  | cons y ys ih =>
    simp only [insertTaskDesc] at h
    by_cases hc : y.createdAt ≤ t.createdAt
    · rw [if_pos hc, List.mem_cons] at h
      rcases h with h1 | h1
      · exact Or.inl h1
      · exact Or.inr h1
    · rw [if_neg hc, List.mem_cons] at h
      rcases h with h1 | h1
      · exact Or.inr (List.mem_cons.mpr (Or.inl h1))
      · rcases ih h1 with h2 | h2
        · exact Or.inl h2
        · exact Or.inr (List.mem_cons_of_mem y h2)

theorem mem_of_mem_sortByCreatedAtDesc {x : TaskRec} {l : List TaskRec}
    (h : x ∈ sortByCreatedAtDesc l) : x ∈ l := by
  induction l with
  | nil => exact absurd h (List.not_mem_nil x)
  | cons y ys ih =>
    simp only [sortByCreatedAtDesc] at h
    rcases mem_insertTaskDesc h with h1 | h1
    · exact List.mem_cons.mpr (Or.inl h1)
    · exact List.mem_cons_of_mem y (ih h1)

/-- C6: every task returned by GET /tasks for the authenticated user `A`
is owned by `A`, for every page / per_page combination; hence no task
owned by a different user `B` ever appears. -/
theorem listTasks_ownership (db : List TaskRec) (A : UserRec)
    (page per_page : Option String) (t : TaskRec)
    (ht : t ∈ listTasks db (some A) page per_page) :
    t.userId = some A.id
    ∧ ∀ B : UserRec, B.id ≠ A.id → t.userId ≠ some B.id := by
  have hmem : t ∈ db.filter (fun t => taskOwnedBy t (some A)) :=
    mem_of_mem_sortByCreatedAtDesc
      (List.mem_of_mem_drop (List.mem_of_mem_take ht))
  have hp : taskOwnedBy t (some A) = true := (List.mem_filter.mp hmem).2
  have howner : t.userId = some A.id := by
    simpa [taskOwnedBy] using hp
  refine ⟨howner, ?_⟩
  intro B hB hcontra
  rw [howner] at hcontra
  exact hB (by injection hcontra with h; exact h.symm)

/-- Witness for C6: a store with one task of user 1 and one of user 2;
the page-1 listing for user 1 contains the user-1 task, which the theorem
certifies as owned by user 1. -/
theorem listTasks_ownership_witness :
    (⟨10, "a", "d", some false, some 1, 5, none⟩ : TaskRec).userId = some 1 :=
  (listTasks_ownership
    [⟨10, "a", "d", some false, some 1, 5, none⟩,
     ⟨11, "b", "d", some false, some 2, 6, none⟩]
    ⟨1, "Jo", "Do", "a@b.c", "H", none⟩ none none
    ⟨10, "a", "d", some false, some 1, 5, none⟩ (by decide)).1

/-- C8: an absent or non-numeric per_page falls back to 10, an absent or
non-numeric page falls back to 1, and the skip count is always
(effective page - 1) * (effective per_page). -/
theorem pagination_defaults (page per_page : Option String) (s1 s2 : String)
    (h1 : per_page = none ∨ (per_page = some s1 ∧ jsParseInt s1 = none))
    (h2 : page = none ∨ (page = some s2 ∧ jsParseInt s2 = none)) :
    tasksQueryTake per_page = 10
    ∧ tasksQueryPage page = 1
    ∧ ∀ p pp : Option String,
        tasksQuerySkip p pp = (tasksQueryPage p - 1) * tasksQueryTake pp := by
  refine ⟨?_, ?_, fun p pp => rfl⟩
  · rcases h1 with h | ⟨h, hn⟩ <;>
      simp [tasksQueryTake, h, jsOrDefault, Option.bind, *]
  · rcases h2 with h | ⟨h, hn⟩ <;>
      simp [tasksQueryPage, h, jsOrDefault, Option.bind, *]

/-- Witness for C8: per_page supplied as the non-numeric "abc", page
absent. -/
theorem pagination_defaults_witness :
    tasksQueryTake (some "abc") = 10 ∧ tasksQueryPage none = 1 :=
  ⟨(pagination_defaults none (some "abc") "abc" "x"
      (Or.inr ⟨rfl, by decide⟩) (Or.inl rfl)).1,
   (pagination_defaults none (some "abc") "abc" "x"
      (Or.inr ⟨rfl, by decide⟩) (Or.inl rfl)).2.1⟩

/-- `AppDataSource.manager.findOneBy(Task, { id: taskId, user })`
(`tasks.handler.ts` lines 134-137 and 173-176): first task matching both
the id and the owning user. -/
def findTaskBy (db : List TaskRec) (taskId : Int) (user : Option UserRec) :
    Option TaskRec :=
  db.find? (fun t => t.id == taskId && taskOwnedBy t user)

/-- Response of the DELETE /tasks/:id handler. -/
inductive TaskResp
  | notFound (status : Nat) (message : String)
  | success (task : TaskRec)
deriving DecidableEq, Repr

/-- `tasks.delete("/:id")` (`tasks.handler.ts` lines 170-193): look the
task up by id AND owner; absent → `{ message: "Task not found" }` with
status 400 and an unchanged store; present → remove it and return it. -/
def deleteTask (db : List TaskRec) (user : Option UserRec) (taskId : Int) :
    TaskResp × List TaskRec :=
  match findTaskBy db taskId user with
  | none => (TaskResp.notFound 400 "Task not found", db)
  | some task =>
    (TaskResp.success task, db.filter (fun x => x.id != task.id))

/-- Body of a PUT /tasks/:id request after validation
(`tasks.handler.ts` lines 117-121): title and description required,
completed optional (`none` = the key was omitted, so the destructured
JS value is `undefined`). -/
structure PutBody where
  title : String
  description : String
  completed : Option Bool
deriving DecidableEq, Repr

/-- The field assignments of the PUT handler (`tasks.handler.ts` lines
145-148): title, description, completed and updatedAt are all
overwritten, `completed` unconditionally with the (possibly undefined)
body value. -/
def applyPut (task : TaskRec) (body : PutBody) (nowMs : Int) : TaskRec :=
  { task with
    title := body.title
    description := body.description
    completed := body.completed
    updatedAt := some nowMs }

/-- The row stored by `manager.save(entity)` when `entity` updates the
existing row `stored`: TypeORM skips properties whose runtime value is
`undefined` when it computes the update columns, so an undefined
`completed` (here `none`) leaves the stored column at its previous
value.  Every other property the PUT handler assigns (title, description,
updatedAt) is a defined value and is written. -/
def saveTaskRow (stored entity : TaskRec) : TaskRec :=
  { entity with
    completed :=
      match entity.completed with
      | none => stored.completed
      | some b => some b }

/-- `tasks.put("/:id")` (`tasks.handler.ts` lines 132-156): look the task
up by id AND owner; absent → `throw new Error("Task ... not found")`
(the `Except.error`); present → overwrite the in-memory entity's fields,
save it (`saveTaskRow`: undefined properties are skipped by the store),
and return the in-memory entity as the response. -/
def updateTask (db : List TaskRec) (user : Option UserRec) (taskId : Int)
    (body : PutBody) (nowMs : Int) : Except String (TaskRec × List TaskRec) :=
  match findTaskBy db taskId user with
  | none => Except.error ("Task " ++ toString taskId ++ " not found")
  | some task =>
    Except.ok (applyPut task body nowMs,
      db.map (fun x =>
        if x.id == task.id then saveTaskRow x (applyPut task body nowMs) else x))

theorem findTaskBy_eq_none_of_foreign {db : List TaskRec} {A : UserRec} {i : Int}
    (h : ∀ t ∈ db, t.id = i → t.userId ≠ some A.id) :
    findTaskBy db i (some A) = none := by
  apply List.find?_eq_none.mpr
  intro t ht
  simp only [taskOwnedBy, Bool.and_eq_true, beq_iff_eq, not_and]
  intro hid
  exact fun hu => h t ht hid hu

theorem findTaskBy_filtered_eq_none {db : List TaskRec} {i : Int}
    {user : Option UserRec} :
    findTaskBy (db.filter (fun t => t.id != i)) i user = none := by
  apply List.find?_eq_none.mpr
  intro t ht
  have hne : (t.id != i) = true := (List.mem_filter.mp ht).2
  simp only [Bool.and_eq_true, beq_iff_eq, not_and]
  intro hid
  exact absurd hid (by simpa using hne)

/-- C7: for an authenticated user `A`, deleting or updating a task id
whose rows in the store are all owned by someone other than `A` behaves
exactly like deleting or updating an id with no row at all: the lookup is
`none` in both worlds and the error responses coincide. -/
theorem foreignTask_indistinguishable (db : List TaskRec) (A : UserRec)
    (i : Int) (body : PutBody) (nowMs : Int)
    (h : ∀ t ∈ db, t.id = i → t.userId ≠ some A.id) :
    findTaskBy db i (some A) = none
    ∧ findTaskBy (db.filter (fun t => t.id != i)) i (some A) = none
    ∧ (deleteTask db (some A) i).1 =
        (deleteTask (db.filter (fun t => t.id != i)) (some A) i).1
    ∧ (deleteTask db (some A) i).1 = TaskResp.notFound 400 "Task not found"
    ∧ updateTask db (some A) i body nowMs =
        updateTask (db.filter (fun t => t.id != i)) (some A) i body nowMs
    ∧ updateTask db (some A) i body nowMs =
        Except.error ("Task " ++ toString i ++ " not found") := by
  have hf : findTaskBy db i (some A) = none := findTaskBy_eq_none_of_foreign h
  have hg : findTaskBy (db.filter (fun t => t.id != i)) i (some A) = none :=
    findTaskBy_filtered_eq_none
  have hdel : (deleteTask db (some A) i).1 = TaskResp.notFound 400 "Task not found" := by
    unfold deleteTask
    rw [hf]
  have hdel2 : (deleteTask (db.filter (fun t => t.id != i)) (some A) i).1 =
      TaskResp.notFound 400 "Task not found" := by
    unfold deleteTask
    rw [hg]
  have hupd : updateTask db (some A) i body nowMs =
      Except.error ("Task " ++ toString i ++ " not found") := by
    unfold updateTask
    rw [hf]
  have hupd2 : updateTask (db.filter (fun t => t.id != i)) (some A) i body nowMs =
      Except.error ("Task " ++ toString i ++ " not found") := by
    unfold updateTask
    rw [hg]
  exact ⟨hf, hg, hdel.trans hdel2.symm, hdel, hupd.trans hupd2.symm, hupd⟩

/-- Witness for C7: the store holds task 5 owned by user 2; user 1's
delete of id 5 answers exactly as on the store with id 5 filtered out. -/
theorem foreignTask_indistinguishable_witness :
    (deleteTask [⟨5, "a", "d", some false, some 2, 0, none⟩]
        (some ⟨1, "Jo", "Do", "a@b.c", "H", none⟩) 5).1 =
      TaskResp.notFound 400 "Task not found" :=
  (foreignTask_indistinguishable [⟨5, "a", "d", some false, some 2, 0, none⟩]
    ⟨1, "Jo", "Do", "a@b.c", "H", none⟩ 5 ⟨"t", "d", none⟩ 0
    (by decide)).2.2.2.1

/-- `authentication()` (`auth.middleware.ts` lines 7-19) as a function of
the bearer token: `verify(token, JWT_SECRET)` (a failure propagates as
the middleware's thrown error), then
`findOneBy(User, { email: String(decodedPayload.email) })`, then
`setUser(user)` — the possibly-null lookup result becomes the request's
current user and the next handler runs. -/
def authentication (udb : List UserRec) (secret : String) (nowSec : Int)
    (tok : Jwt) : Except TokenError (Option UserRec) :=
  match jwtVerify tok secret nowSec with
  | Except.error e => Except.error e
  | Except.ok claims => Except.ok (findOneByEmail udb claims.email)

/-- `tasks.post("/")` handler body (`tasks.handler.ts` lines 72-94):
build a task owned by `getUser()` (which may be null), completed false,
created now, and return it. -/
def createTask (user : Option UserRec) (title description : String)
    (nowMs newId : Int) : TaskRec :=
  { id := newId
    title := title
    description := description
    completed := some false
    userId := user.map (fun u => u.id)
    createdAt := nowMs
    updatedAt := none }

/-- The authentication middleware chained with the POST /tasks handler:
an error of the middleware aborts the request, otherwise the handler runs
with the middleware's user context. -/
def postTasks (udb : List UserRec) (secret : String) (nowSec : Int)
    (tok : Jwt) (title description : String) (nowMs newId : Int) :
    Except TokenError TaskRec :=
  match authentication udb secret nowSec tok with
  | Except.error e => Except.error e
  | Except.ok user => Except.ok (createTask user title description nowMs newId)

/-- C9: a validly signed, unexpired JWT whose email claim matches no
stored user is not rejected by the authentication middleware: the user
context becomes null (`Except.ok none`) and the handler runs, so
POST /tasks answers successfully with a task whose owner is null. -/
theorem authMiddleware_unknownEmail_nullUser (udb : List UserRec)
    (secret : String) (nowSec : Int) (tok : Jwt)
    (title description : String) (nowMs newId : Int)
    (hsec : tok.secret = secret) (hexp : nowSec < tok.payload.exp)
    (hmail : findOneByEmail udb tok.payload.email = none) :
    authentication udb secret nowSec tok = Except.ok none
    ∧ postTasks udb secret nowSec tok title description nowMs newId =
        Except.ok (createTask none title description nowMs newId)
    ∧ (createTask none title description nowMs newId).userId = none := by
  have hv : jwtVerify tok secret nowSec = Except.ok tok.payload := by
    unfold jwtVerify
    rw [if_neg (not_not_intro hsec), if_neg (by omega)]
  have ha : authentication udb secret nowSec tok = Except.ok none := by
    unfold authentication
    rw [hv]
    show Except.ok (findOneByEmail udb tok.payload.email) = Except.ok none
    rw [hmail]
  refine ⟨ha, ?_, rfl⟩
  unfold postTasks
  rw [ha]

/-- Witness for C9: empty user store, token signed with "s" for email
`ghost@x.y`, expiry 100, verified at 50. -/
theorem authMiddleware_unknownEmail_nullUser_witness :
    postTasks [] "s" 50 ⟨⟨7, "G", "H", "ghost@x.y", 100⟩, "s"⟩ "t" "d" 0 1 =
      Except.ok (createTask none "t" "d" 0 1) :=
  (authMiddleware_unknownEmail_nullUser [] "s" 50
    ⟨⟨7, "G", "H", "ghost@x.y", 100⟩, "s"⟩ "t" "d" 0 1
    rfl (by decide) rfl).2.1

/-- Counterexample to C10 as stated: task 5 of user 1 is stored with
`completed = some true`; a PUT by user 1 whose body omits `completed`
leaves the STORED row's completion status at `some true` (TypeORM's save
skips the undefined property) — the stored field is not set to undefined.
Only the in-memory entity returned in the response has
`completed = none`. -/
theorem putTask_stored_keeps_completed_counterexample :
    updateTask [⟨5, "a", "d", some true, some 1, 0, none⟩]
        (some ⟨1, "Jo", "Do", "a@b.c", "H", none⟩) 5 ⟨"t", "d", none⟩ 9 =
      Except.ok (⟨5, "t", "d", none, some 1, 0, some 9⟩,
        [⟨5, "t", "d", some true, some 1, 0, some 9⟩])
    ∧ (⟨5, "t", "d", some true, some 1, 0, some 9⟩ : TaskRec).completed =
        (⟨5, "a", "d", some true, some 1, 0, none⟩ : TaskRec).completed
    ∧ (⟨5, "t", "d", some true, some 1, 0, some 9⟩ : TaskRec).completed ≠ none :=
  ⟨rfl, rfl, by decide⟩

/-- C10 (amended): the PUT handler unconditionally overwrites the
in-memory entity's `completed` field with the body value, so when the
body omits `completed` the task returned in the response carries
`completed = undefined`; but the store skips undefined properties on
save, so the STORED row's completion status is left unchanged (and is
written only when the body supplies `completed`). -/
theorem putTask_response_vs_stored_completed (db : List TaskRec) (A : UserRec)
    (i : Int) (body : PutBody) (nowMs : Int) (task : TaskRec)
    (hfind : findTaskBy db i (some A) = some task) :
    updateTask db (some A) i body nowMs =
      Except.ok (applyPut task body nowMs,
        db.map (fun x =>
          if x.id == task.id then saveTaskRow x (applyPut task body nowMs) else x))
    ∧ (applyPut task body nowMs).completed = body.completed
    ∧ (body.completed = none → (applyPut task body nowMs).completed = none)
    ∧ (body.completed = none → ∀ x : TaskRec,
        (saveTaskRow x (applyPut task body nowMs)).completed = x.completed)
    ∧ (∀ b : Bool, body.completed = some b → ∀ x : TaskRec,
        (saveTaskRow x (applyPut task body nowMs)).completed = some b) := by
  refine ⟨?_, rfl, fun hb => by simp [applyPut, hb], fun hb x => ?_, fun b hb x => ?_⟩
  · unfold updateTask
    rw [hfind]
  · simp [saveTaskRow, applyPut, hb]
  · simp [saveTaskRow, applyPut, hb]

/-- Witness for C10 (amended): task 5 of user 1 is completed; a PUT whose
body omits `completed` leaves the stored completion status unchanged. -/
theorem putTask_response_vs_stored_completed_witness :
    (saveTaskRow ⟨5, "a", "d", some true, some 1, 0, none⟩
        (applyPut ⟨5, "a", "d", some true, some 1, 0, none⟩ ⟨"t", "d", none⟩ 9)).completed =
      (⟨5, "a", "d", some true, some 1, 0, none⟩ : TaskRec).completed :=
  (putTask_response_vs_stored_completed [⟨5, "a", "d", some true, some 1, 0, none⟩]
    ⟨1, "Jo", "Do", "a@b.c", "H", none⟩ 5 ⟨"t", "d", none⟩ 9
    ⟨5, "a", "d", some true, some 1, 0, none⟩ (by decide)).2.2.2.1 rfl
    ⟨5, "a", "d", some true, some 1, 0, none⟩

end HonoTypeorm
